import Mathlib

/-!
Shallow embedding of the MultiTenantPOS storage layer (server/storage.ts,
server/db.ts) and proofs about its data-access operations.

The TypeScript source keeps four entity tables (users, subsidiaries,
inventory, sales) behind a `DatabaseStorage` class whose methods run against
a shared database handle `db` that is populated asynchronously at startup
(server/db.ts).  We embed a database as an explicit `DBState` record, the
possibly-uninitialized handle as `Option DBState`, and each storage method as
a pure function returning `Except DbError result` together with the
post-state.  JavaScript numbers backing quantities and prices are embedded as
`Int`; row ids are `Nat`; a thrown JavaScript `Error` is a `DbError`
constructor carrying the distinguishing information of its message.
-/

namespace MultiTenantPOS

/-- A row of the `users` table (shared schema, as consumed by storage.ts):
id, unique username, hashed password, role string, optional subsidiary. -/
structure User where
  id : Nat
  username : String
  password : String
  role : String
  subsidiaryId : Option Nat
deriving DecidableEq

/-- A row of the `subsidiaries` table: storage.ts `createSubsidiary` writes
name, taxId, email, phoneNumber, logo, address, city, country, status. -/
structure Subsidiary where
  id : Nat
  name : String
  taxId : String
  email : String
  phoneNumber : String
  logo : Option String
  address : Option String
  city : Option String
  country : Option String
  status : Bool
deriving DecidableEq

/-- A row of the `inventory` table; `quantity` is the mutable stock value. -/
structure Inventory where
  id : Nat
  subsidiaryId : Nat
  name : String
  quantity : Int
  costPrice : Int
  salePrice : Int
deriving DecidableEq

/-- A row of the `sales` table, as written by storage.ts `createSale`. -/
structure Sale where
  id : Nat
  subsidiaryId : Nat
  itemId : Nat
  userId : Nat
  quantity : Int
  salePrice : Int
  timestamp : Int
deriving DecidableEq

/-- The database contents relevant to the storage operations under proof,
with one serial-id counter per table. -/
structure DBState where
  users : List User
  subsidiaries : List Subsidiary
  inventory : List Inventory
  sales : List Sale
  nextUserId : Nat
  nextSubsidiaryId : Nat
  nextInventoryId : Nat
  nextSaleId : Nat
deriving DecidableEq

/-- Errors thrown by the storage layer.  Each constructor corresponds to a
distinguishable JavaScript `Error` raised in storage.ts:
`connectionNotEstablished` is the message of `ensureDbConnection`
(line 78, 'Database connection not yet established');
`jsTypeError` is the TypeError raised by dereferencing the still-undefined
`db` handle (the dual-engine `createSale`, lines 1114-1150, reads
`db.select()` with no guard); `notFound` carries messages such as
"Inventory item not found"; `insufficientStock` is "Insufficient stock";
`missingRequiredFields` is 'Missing required fields'; `pgUniqueViolation`
is the driver error with `code === '23505'`; `taxIdExists` is
'Tax ID already exists'; `injected` tags a simulated driver fault used for
the atomicity analysis of the sale transaction. -/
inductive DbError where
  | connectionNotEstablished
  | jsTypeError (msg : String)
  | notFound (msg : String)
  | insufficientStock
  | missingRequiredFields
  | pgUniqueViolation
  | taxIdExists
  | injected (msg : String)
deriving DecidableEq

/-- storage.ts lines 76-81: `ensureDbConnection` throws
'Database connection not yet established' when the async handle `db` is
still unset, and returns the handle otherwise. -/
def ensureDbConnection (db : Option DBState) : Except DbError DBState :=
  match db with
  | none => Except.error DbError.connectionNotEstablished
  | some st => Except.ok st

/-- Drizzle `connection.transaction`: run the body against the current
state; on success keep the body's state, on any failure inside the scope
roll back to the pre-transaction state and re-raise the body's error. -/
def transaction (st : DBState) (body : DBState → Except DbError (α × DBState)) :
    Except DbError α × DBState :=
  match body st with
  | Except.error e => (Except.error e, st)
  | Except.ok (a, st') => (Except.ok a, st')

/-- Drizzle `select().from(inventory).where(eq(inventory.id, id))`
destructured as `const [item] = ...`: the first row with the given id. -/
def findInventory (st : DBState) (id : Nat) : Option Inventory :=
  st.inventory.find? (fun it => it.id == id)

/-- Drizzle `update(inventory).set(quantity).where(eq(inventory.id, id))`:
set the quantity of every row whose id matches, leaving the rest alone. -/
def setInventoryQuantity (st : DBState) (id : Nat) (q : Int) : DBState :=
  { st with inventory :=
      st.inventory.map (fun it => if it.id == id then { it with quantity := q } else it) }

/-- `select().from(users).where(eq(users.username, username))` destructured
as `const [user] = ...`: the first row with the given username. -/
def getUserByUsername (st : DBState) (username : String) : Option User :=
  st.users.find? (fun u => u.username == username)

/-- `listSubsidiaries` (storage.ts lines 174-182): all subsidiary rows. -/
def listSubsidiaries (st : DBState) : List Subsidiary :=
  st.subsidiaries

/-- Caller-supplied sale data (`InsertSale`): the timestamp is optional and
defaults to "now" inside `createSale`. -/
structure InsertSale where
  subsidiaryId : Nat
  itemId : Nat
  userId : Nat
  quantity : Int
  salePrice : Int
  timestamp : Option Int
deriving DecidableEq

/-- The Sale row built inside `createSale`'s transaction scope (storage.ts
lines 313-319): the caller's fields under the next serial id, with the
timestamp defaulted to "now" when absent. -/
def mkSaleRow (st : DBState) (sale : InsertSale) (now : Int) : Sale :=
  { id := st.nextSaleId
    subsidiaryId := sale.subsidiaryId
    itemId := sale.itemId
    userId := sale.userId
    quantity := sale.quantity
    salePrice := sale.salePrice
    timestamp := sale.timestamp.getD now }

/-- storage.ts lines 293-337, `DatabaseStorage.createSale` run against an
established connection, with an optional simulated driver fault striking
inside the transaction scope after the Sale insert and before the
inventory update (the fault-injection point named by the spec's atomicity
property).  Steps: read the inventory row by `sale.itemId`; absent rows
fail with "Inventory item not found"; `inventoryItem.quantity <
sale.quantity` fails with "Insufficient stock"; otherwise a transaction
inserts the Sale row (timestamp defaulted to `now`) and sets the item's
quantity to `inventoryItem.quantity - sale.quantity`.  The Sale row the
transaction inserts is `mkSaleRow`: the sale's fields under the next serial
id, with the timestamp defaulted. -/
def createSaleWithFault (st : DBState) (sale : InsertSale) (now : Int)
    (fault : Option String) : Except DbError Sale × DBState :=
  match findInventory st sale.itemId with
  | none => (Except.error (DbError.notFound "Inventory item not found"), st)
  | some inventoryItem =>
    if inventoryItem.quantity < sale.quantity then
      (Except.error DbError.insufficientStock, st)
    else
      transaction st (fun st0 =>
        let createdSale : Sale := mkSaleRow st0 sale now
        let st1 : DBState :=
          { st0 with sales := st0.sales ++ [createdSale], nextSaleId := st0.nextSaleId + 1 }
        match fault with
        | some msg => Except.error (DbError.injected msg)
        | none =>
          let st2 := setInventoryQuantity st1 sale.itemId
            (inventoryItem.quantity - sale.quantity)
          Except.ok (createdSale, st2))

/-- `createSale` against an established connection, no fault injected. -/
def createSaleSt (st : DBState) (sale : InsertSale) (now : Int) :
    Except DbError Sale × DBState :=
  createSaleWithFault st sale now none

/-- storage.ts lines 293-337 as invoked through the storage object: the
guarded version first calls `ensureDbConnection` on the shared handle. -/
def createSaleOp (db : Option DBState) (sale : InsertSale) (now : Int) :
    Except DbError Sale × Option DBState :=
  match ensureDbConnection db with
  | Except.error e => (Except.error e, db)
  | Except.ok st =>
    let r := createSaleSt st sale now
    (r.1, some r.2)

/-- storage.ts lines 1114-1150, the dual-engine `DatabaseStorage.createSale`:
unlike every sibling method of that class it reads the module-level `db`
handle with no connection guard, so before initialization completes the
JavaScript expression `db.select()` raises a TypeError on the undefined
handle rather than the connection error. -/
def createSaleDual (db : Option DBState) (sale : InsertSale) (now : Int) :
    Except DbError Sale × Option DBState :=
  match db with
  | none =>
    (Except.error (DbError.jsTypeError "Cannot read properties of undefined"), none)
  | some st =>
    let r := createSaleSt st sale now
    (r.1, some r.2)

/-- Caller-supplied subsidiary data (`InsertSubsidiary`): every field may be
absent in the request body; a `none` or empty string is falsy in the
JavaScript check `!subsidiary.name || ...`. -/
structure InsertSubsidiary where
  name : Option String
  taxId : Option String
  email : Option String
  phoneNumber : Option String
  logo : Option String
  address : Option String
  city : Option String
  country : Option String
  status : Option Bool
deriving DecidableEq

/-- JavaScript falsiness of an optional string field: `undefined` and the
empty string are falsy. -/
def falsyStr (s : Option String) : Bool :=
  match s with
  | none => true
  | some str => str.isEmpty

/-- Modelled from the spec: the shared database schema (shared/schema, not
under src/) declares `Subsidiary.taxId` globally unique, and the PostgreSQL
driver surfaces a violation of that constraint as an error whose `code` is
'23505'.  Inserting a subsidiary row whose taxId is already stored fails
with that driver error; otherwise the row is appended. -/
def insertSubsidiaryRow (st : DBState) (row : Subsidiary) :
    Except DbError (Subsidiary × DBState) :=
  if st.subsidiaries.any (fun s => s.taxId == row.taxId) then
    Except.error DbError.pgUniqueViolation
  else
    Except.ok (row,
      { st with subsidiaries := st.subsidiaries ++ [row],
                nextSubsidiaryId := st.nextSubsidiaryId + 1 })

/-- The values clause of `createSubsidiary`'s insert (storage.ts lines
192-205): the caller's fields under the next serial id, `status` defaulted
to true. -/
def mkSubsidiaryRow (st : DBState) (sub : InsertSubsidiary) : Subsidiary :=
  { id := st.nextSubsidiaryId
    name := sub.name.getD ""
    taxId := sub.taxId.getD ""
    email := sub.email.getD ""
    phoneNumber := sub.phoneNumber.getD ""
    logo := sub.logo
    address := sub.address
    city := sub.city
    country := sub.country
    status := sub.status.getD true }

/-- storage.ts lines 184-215, `DatabaseStorage.createSubsidiary`: validate
that name, taxId, email and phoneNumber are truthy (throwing
'Missing required fields' before the connection is even consulted), then
insert the row built by `mkSubsidiaryRow`; the catch block maps a driver
error with `code === '23505'` to 'Tax ID already exists' and re-raises
anything else. -/
def createSubsidiary (db : Option DBState) (sub : InsertSubsidiary) :
    Except DbError Subsidiary × Option DBState :=
  if falsyStr sub.name || falsyStr sub.taxId || falsyStr sub.email ||
      falsyStr sub.phoneNumber then
    (Except.error DbError.missingRequiredFields, db)
  else
    match ensureDbConnection db with
    | Except.error e => (Except.error e, db)
    | Except.ok st =>
      match insertSubsidiaryRow st (mkSubsidiaryRow st sub) with
      | Except.error DbError.pgUniqueViolation =>
        (Except.error DbError.taxIdExists, some st)
      | Except.error e => (Except.error e, some st)
      | Except.ok (newRow, st') => (Except.ok newRow, some st')

/-- Caller-supplied inventory data (`InsertInventory`). -/
structure InsertInventory where
  subsidiaryId : Nat
  name : String
  quantity : Int
  costPrice : Int
  salePrice : Int
deriving DecidableEq

/-- storage.ts lines 255-264, `DatabaseStorage.createInventory`: insert the
row exactly as given — no validation of the quantity is performed. -/
def createInventory (db : Option DBState) (item : InsertInventory) :
    Except DbError Inventory × Option DBState :=
  match ensureDbConnection db with
  | Except.error e => (Except.error e, db)
  | Except.ok st =>
    let newItem : Inventory :=
      { id := st.nextInventoryId
        subsidiaryId := item.subsidiaryId
        name := item.name
        quantity := item.quantity
        costPrice := item.costPrice
        salePrice := item.salePrice }
    (Except.ok newItem,
      some { st with inventory := st.inventory ++ [newItem],
                     nextInventoryId := st.nextInventoryId + 1 })

/-- A `Partial InsertInventory` patch: absent fields are left unchanged by
the drizzle `set`. -/
structure InventoryPatch where
  subsidiaryId : Option Nat := none
  name : Option String := none
  quantity : Option Int := none
  costPrice : Option Int := none
  salePrice : Option Int := none
deriving DecidableEq

/-- Apply a partial update to an inventory row (drizzle `set`). -/
def applyInventoryPatch (it : Inventory) (p : InventoryPatch) : Inventory :=
  { id := it.id
    subsidiaryId := p.subsidiaryId.getD it.subsidiaryId
    name := p.name.getD it.name
    quantity := p.quantity.getD it.quantity
    costPrice := p.costPrice.getD it.costPrice
    salePrice := p.salePrice.getD it.salePrice }

/-- storage.ts lines 266-280, `DatabaseStorage.updateInventory`: update the
row matching the id with the given partial fields (no quantity
validation), throwing "Inventory item not found" when no row matches. -/
def updateInventory (db : Option DBState) (id : Nat) (p : InventoryPatch) :
    Except DbError Inventory × Option DBState :=
  match ensureDbConnection db with
  | Except.error e => (Except.error e, db)
  | Except.ok st =>
    match findInventory st id with
    | none => (Except.error (DbError.notFound "Inventory item not found"), some st)
    | some it =>
      (Except.ok (applyInventoryPatch it p),
        some { st with inventory :=
          st.inventory.map (fun x => if x.id == id then applyInventoryPatch x p else x) })

/-- Caller-supplied user data (`InsertUser`). -/
structure InsertUser where
  username : String
  password : String
  role : String
  subsidiaryId : Option Nat
deriving DecidableEq

/-- storage.ts lines 125-134, `DatabaseStorage.createUser` against an
established connection: insert the row and return it. -/
def createUserSt (st : DBState) (u : InsertUser) : User × DBState :=
  let newUser : User :=
    { id := st.nextUserId
      username := u.username
      password := u.password
      role := u.role
      subsidiaryId := u.subsidiaryId }
  (newUser, { st with users := st.users ++ [newUser], nextUserId := st.nextUserId + 1 })

/-- storage.ts lines 373-389, `DatabaseStorage.ensureDefaultAdmin`: look up
the user named "admin"; when absent, create one with role `mhc_admin`, no
subsidiary, and a freshly hashed default password (the hash is salted with
random bytes, so it enters the model as the parameter `hashedPassword`);
when present, do nothing. -/
def ensureDefaultAdmin (st : DBState) (hashedPassword : String) : DBState :=
  match getUserByUsername st "admin" with
  | some _ => st
  | none =>
    (createUserSt st
      { username := "admin"
        password := hashedPassword
        role := "mhc_admin"
        subsidiaryId := none }).2

/-- Run the default-admin bootstrap once per element of `hps` in sequence
(each run hashes its own password). -/
def runAdminBootstrap (st : DBState) (hps : List String) : DBState :=
  hps.foldl (fun s hp => ensureDefaultAdmin s hp) st

/-- The number of stored users named "admin". -/
def countAdmin (st : DBState) : Nat :=
  (st.users.filter (fun u => u.username == "admin")).length

/-! Concrete fixtures used by the witness theorems: a database holding one
inventory item "Widget" with quantity 10 (the spec's §8 concrete scenario),
and the requests exercised against it. -/

/-- Fixture: the one stored inventory item, stock 10. -/
def wItem : Inventory :=
  { id := 1, subsidiaryId := 1, name := "Widget", quantity := 10,
    costPrice := 2, salePrice := 5 }

/-- Fixture: a database with the single item `wItem` and no other rows. -/
def wState : DBState :=
  { users := [], subsidiaries := [], inventory := [wItem], sales := [],
    nextUserId := 1, nextSubsidiaryId := 1, nextInventoryId := 2, nextSaleId := 1 }

/-- Fixture: a sale of 3 Widgets (3 ≤ 10 in stock). -/
def wSale : InsertSale :=
  { subsidiaryId := 1, itemId := 1, userId := 7, quantity := 3, salePrice := 5,
    timestamp := none }

/-- Fixture: a sale of 11 Widgets (exceeds the 10 in stock). -/
def wSaleBig : InsertSale :=
  { subsidiaryId := 1, itemId := 1, userId := 7, quantity := 11, salePrice := 5,
    timestamp := none }

/-- Fixture: a sale with negative quantity -2. -/
def wSaleNeg : InsertSale :=
  { subsidiaryId := 1, itemId := 1, userId := 7, quantity := -2, salePrice := 5,
    timestamp := none }

/-- Fixture: a sale issued for subsidiary 2 against subsidiary 1's item. -/
def wSaleCross : InsertSale :=
  { subsidiaryId := 2, itemId := 1, userId := 7, quantity := 3, salePrice := 5,
    timestamp := none }

/-- Fixture: a valid subsidiary-creation request. -/
def wSub1 : InsertSubsidiary :=
  { name := some "Acme", taxId := some "TAX-1", email := some "a@acme.test",
    phoneNumber := some "555", logo := none, address := none, city := none,
    country := none, status := none }

/-- Fixture: a second request reusing the taxId of `wSub1`. -/
def wSubDup : InsertSubsidiary :=
  { name := some "Globex", taxId := some "TAX-1", email := some "g@globex.test",
    phoneNumber := some "556", logo := none, address := none, city := none,
    country := none, status := none }

/-- Fixture: a request whose name is the empty string. -/
def wSubNoName : InsertSubsidiary :=
  { name := some "", taxId := some "TAX-2", email := some "x@x.test",
    phoneNumber := some "557", logo := none, address := none, city := none,
    country := none, status := none }

/-- Fixture: the row `createSubsidiary` stores for `wSub1` on `wState`. -/
def c5Row : Subsidiary :=
  { id := 1, name := "Acme", taxId := "TAX-1", email := "a@acme.test",
    phoneNumber := "555", logo := none, address := none, city := none,
    country := none, status := true }

/-- Fixture: the database after storing `wSub1` in `wState`. -/
def c5Mid : DBState :=
  { wState with subsidiaries := [c5Row], nextSubsidiaryId := 2 }

/-- Fixture: the database `updateInventory` produces when Widget's quantity
is patched to -3. -/
def c4End : DBState :=
  { wState with inventory := [{ wItem with quantity := -3 }] }

/-! Helper lemmas shared by the claim theorems. -/

/-- Characterization of the successful `createSale` path: with the target
row found and sufficient stock, the call returns the freshly built Sale row
and the post-state appends it to `sales` and rewrites the target item's
quantity. -/
theorem createSaleSt_ok (st : DBState) (sale : InsertSale) (now : Int)
    (item : Inventory) (hfind : findInventory st sale.itemId = some item)
    (hstock : sale.quantity ≤ item.quantity) :
    createSaleSt st sale now =
      (Except.ok (mkSaleRow st sale now),
       setInventoryQuantity
         { st with sales := st.sales ++ [mkSaleRow st sale now],
                   nextSaleId := st.nextSaleId + 1 }
         sale.itemId (item.quantity - sale.quantity)) := by
  unfold createSaleSt createSaleWithFault transaction
  split
  · next heq => rw [hfind] at heq; exact absurd heq (by simp)
  · next inventoryItem heq =>
    rw [hfind] at heq
    obtain rfl : inventoryItem = item := (Option.some.inj heq).symm
    rw [if_neg (not_lt.mpr hstock)]

/-- `find?` by id over a list whose matching rows had their quantity set. -/
theorem find?_setQuantity (l : List Inventory) (id : Nat) (q : Int) :
    (l.map (fun it => if it.id == id then { it with quantity := q } else it)).find?
        (fun it => it.id == id) =
      (l.find? (fun it => it.id == id)).map
        (fun it => { it with quantity := q }) := by
  induction l with
  | nil => rfl
  | cons x xs ih =>
    by_cases h : (x.id == id) = true
    · have h2 : (fun it : Inventory => it.id == id) ({ x with quantity := q } : Inventory) = true := h
      rw [List.map_cons, if_pos h,
        List.find?_cons_of_pos (p := fun it : Inventory => it.id == id) _ h2,
        List.find?_cons_of_pos (p := fun it : Inventory => it.id == id) (a := x) _ h,
        Option.map_some']
    · rw [List.map_cons, if_neg h,
        List.find?_cons_of_neg (p := fun it : Inventory => it.id == id) (a := x) _ h,
        List.find?_cons_of_neg (p := fun it : Inventory => it.id == id) (a := x) _ h, ih]

/-- Looking up the updated id after `setInventoryQuantity` yields the old
row with the new quantity. -/
theorem findInventory_setInventoryQuantity (st : DBState) (id : Nat) (q : Int) :
    findInventory (setInventoryQuantity st id q) id =
      (findInventory st id).map (fun it => { it with quantity := q }) := by
  unfold findInventory setInventoryQuantity
  exact find?_setQuantity st.inventory id q

/-! Claim theorems. -/

/-- C1: for every sale request of quantity q against an inventory item with
starting stock s ≥ q, `createSale` succeeds, producing exactly one new Sale
row carrying the sale's fields (timestamp defaulted to now), the target
item's quantity becomes s - q, no other inventory row is changed, and the
other tables are untouched. -/
theorem C1_createSale_success (st : DBState) (sale : InsertSale) (now : Int)
    (item : Inventory) (hfind : findInventory st sale.itemId = some item)
    (hstock : sale.quantity ≤ item.quantity) :
    ∃ createdSale : Sale,
      (createSaleSt st sale now).1 = Except.ok createdSale ∧
      createdSale.subsidiaryId = sale.subsidiaryId ∧
      createdSale.itemId = sale.itemId ∧
      createdSale.userId = sale.userId ∧
      createdSale.quantity = sale.quantity ∧
      createdSale.salePrice = sale.salePrice ∧
      createdSale.timestamp = sale.timestamp.getD now ∧
      (createSaleSt st sale now).2.sales = st.sales ++ [createdSale] ∧
      (createSaleSt st sale now).2.inventory =
        st.inventory.map (fun it =>
          if it.id == sale.itemId then { it with quantity := item.quantity - sale.quantity }
          else it) ∧
      (createSaleSt st sale now).2.users = st.users ∧
      (createSaleSt st sale now).2.subsidiaries = st.subsidiaries := by
  rw [createSaleSt_ok st sale now item hfind hstock]
  exact ⟨mkSaleRow st sale now, rfl, rfl, rfl, rfl, rfl, rfl, rfl, rfl, rfl, rfl, rfl⟩

/-- Witness for C1: selling 3 Widgets out of 10 in stock. -/
theorem C1_createSale_success_witness :
    findInventory wState wSale.itemId = some wItem ∧
    wSale.quantity ≤ wItem.quantity ∧
    (∃ createdSale : Sale,
      (createSaleSt wState wSale 0).1 = Except.ok createdSale ∧
      createdSale.subsidiaryId = wSale.subsidiaryId ∧
      createdSale.itemId = wSale.itemId ∧
      createdSale.userId = wSale.userId ∧
      createdSale.quantity = wSale.quantity ∧
      createdSale.salePrice = wSale.salePrice ∧
      createdSale.timestamp = wSale.timestamp.getD 0 ∧
      (createSaleSt wState wSale 0).2.sales = wState.sales ++ [createdSale] ∧
      (createSaleSt wState wSale 0).2.inventory =
        wState.inventory.map (fun it =>
          if it.id == wSale.itemId then { it with quantity := wItem.quantity - wSale.quantity }
          else it) ∧
      (createSaleSt wState wSale 0).2.users = wState.users ∧
      (createSaleSt wState wSale 0).2.subsidiaries = wState.subsidiaries) :=
  ⟨rfl, by decide, C1_createSale_success wState wSale 0 wItem rfl (by decide)⟩

/-- C2: a sale whose quantity exceeds the current stock fails with the
"Insufficient stock" error and leaves the database state (in particular the
inventory and sales tables) unchanged. -/
theorem C2_insufficient_stock (st : DBState) (sale : InsertSale) (now : Int)
    (item : Inventory) (hfind : findInventory st sale.itemId = some item)
    (hstock : item.quantity < sale.quantity) :
    createSaleSt st sale now = (Except.error DbError.insufficientStock, st) := by
  unfold createSaleSt createSaleWithFault
  split
  · next heq => rw [hfind] at heq; exact absurd heq (by simp)
  · next inventoryItem heq =>
    rw [hfind] at heq
    obtain rfl : inventoryItem = item := (Option.some.inj heq).symm
    rw [if_pos hstock]

/-- Witness for C2: selling 11 Widgets with only 10 in stock. -/
theorem C2_insufficient_stock_witness :
    findInventory wState wSaleBig.itemId = some wItem ∧
    wItem.quantity < wSaleBig.quantity ∧
    createSaleSt wState wSaleBig 0 = (Except.error DbError.insufficientStock, wState) :=
  ⟨rfl, by decide, C2_insufficient_stock wState wSaleBig 0 wItem rfl (by decide)⟩

/-- C3: the sale transaction is atomic — a fault striking inside the
transaction scope after the Sale insert and before the inventory update
leaves the database state unchanged (neither the Sale row nor the decrement
persists) and re-raises the original error to the caller. -/
theorem C3_transaction_atomicity (st : DBState) (sale : InsertSale) (now : Int)
    (item : Inventory) (msg : String)
    (hfind : findInventory st sale.itemId = some item)
    (hstock : sale.quantity ≤ item.quantity) :
    createSaleWithFault st sale now (some msg) =
      (Except.error (DbError.injected msg), st) := by
  unfold createSaleWithFault transaction
  split
  · next heq => rw [hfind] at heq; exact absurd heq (by simp)
  · next inventoryItem heq =>
    rw [hfind] at heq
    obtain rfl : inventoryItem = item := (Option.some.inj heq).symm
    rw [if_neg (not_lt.mpr hstock)]

/-- Witness for C3: a fault injected after the insert of a valid 3-Widget
sale rolls the state back. -/
theorem C3_transaction_atomicity_witness :
    findInventory wState wSale.itemId = some wItem ∧
    wSale.quantity ≤ wItem.quantity ∧
    createSaleWithFault wState wSale 0 (some "boom") =
      (Except.error (DbError.injected "boom"), wState) :=
  ⟨rfl, by decide, C3_transaction_atomicity wState wSale 0 wItem "boom" rfl (by decide)⟩

/-- C4 (amended): `createSale` preserves non-negativity of every stored
inventory quantity — if all quantities are ≥ 0 beforehand they remain so
afterwards, whether the sale is accepted or rejected. -/
theorem C4_createSale_preserves_nonneg (st : DBState) (sale : InsertSale) (now : Int)
    (hpos : ∀ it ∈ st.inventory, 0 ≤ it.quantity) :
    ∀ it ∈ (createSaleSt st sale now).2.inventory, 0 ≤ it.quantity := by
  unfold createSaleSt createSaleWithFault transaction
  split
  · exact hpos
  · next inventoryItem heq =>
    by_cases hlt : inventoryItem.quantity < sale.quantity
    · rw [if_pos hlt]; exact hpos
    · rw [if_neg hlt]
      show ∀ it ∈ (setInventoryQuantity
          { st with sales := st.sales ++ [mkSaleRow st sale now],
                    nextSaleId := st.nextSaleId + 1 }
          sale.itemId (inventoryItem.quantity - sale.quantity)).inventory, 0 ≤ it.quantity
      unfold setInventoryQuantity
      intro it hit
      simp only [List.mem_map] at hit
      obtain ⟨x, hx, rfl⟩ := hit
      by_cases hid : (x.id == sale.itemId) = true
      · rw [if_pos hid]
        show 0 ≤ inventoryItem.quantity - sale.quantity
        exact sub_nonneg.mpr (not_lt.mp hlt)
      · rw [if_neg hid]
        exact hpos x hx

/-- Witness for the amended C4 at the Widget fixture. -/
theorem C4_createSale_preserves_nonneg_witness :
    (∀ it ∈ wState.inventory, 0 ≤ it.quantity) ∧
    ∀ it ∈ (createSaleSt wState wSale 0).2.inventory, 0 ≤ it.quantity :=
  ⟨by decide, C4_createSale_preserves_nonneg wState wSale 0 (by decide)⟩

/-- Counterexample to C4 as stated: starting from a database whose only
item has quantity 10 ≥ 0, the storage operation `updateInventory` accepts a
patch setting the quantity to -3 and stores it, driving a stored quantity
below zero. -/
theorem C4_counterexample :
    (∀ it ∈ wState.inventory, 0 ≤ it.quantity) ∧
    (updateInventory (some wState) 1
        { subsidiaryId := none, name := none, quantity := some (-3),
          costPrice := none, salePrice := none }).1 =
      Except.ok { wItem with quantity := -3 } ∧
    (updateInventory (some wState) 1
        { subsidiaryId := none, name := none, quantity := some (-3),
          costPrice := none, salePrice := none }).2 = some c4End ∧
    ∃ it ∈ c4End.inventory, it.quantity < 0 :=
  ⟨by decide, rfl, rfl, by decide⟩

/-- C6: a `createSubsidiary` request in which any of name, taxId, email or
phoneNumber is missing or empty fails with the validation error and leaves
the handle — connected or not — untouched, so `listSubsidiaries` afterwards
shows no new row; the conclusion holds for every `db : Option DBState`,
including the not-yet-connected `none`, because the check runs before the
connection is consulted. -/
theorem C6_validation_fails_fast (db : Option DBState) (sub : InsertSubsidiary)
    (h : falsyStr sub.name = true ∨ falsyStr sub.taxId = true ∨
         falsyStr sub.email = true ∨ falsyStr sub.phoneNumber = true) :
    createSubsidiary db sub = (Except.error DbError.missingRequiredFields, db) ∧
    ∀ st, db = some st →
      listSubsidiaries (((createSubsidiary db sub).2).getD st) = listSubsidiaries st := by
  have hv : (falsyStr sub.name || falsyStr sub.taxId || falsyStr sub.email ||
      falsyStr sub.phoneNumber) = true := by
    rcases h with h | h | h | h <;> simp [h]
  unfold createSubsidiary
  rw [if_pos hv]
  exact ⟨rfl, by intro st hst; rw [hst]; rfl⟩

/-- Witness for C6: an empty name on a connected database with no
subsidiaries. -/
theorem C6_validation_fails_fast_witness :
    (falsyStr wSubNoName.name = true ∨ falsyStr wSubNoName.taxId = true ∨
     falsyStr wSubNoName.email = true ∨ falsyStr wSubNoName.phoneNumber = true) ∧
    (createSubsidiary (some wState) wSubNoName =
      (Except.error DbError.missingRequiredFields, some wState) ∧
     ∀ st, some wState = some st →
       listSubsidiaries (((createSubsidiary (some wState) wSubNoName).2).getD st) =
         listSubsidiaries st) :=
  ⟨Or.inl (by decide), C6_validation_fails_fast (some wState) wSubNoName (Or.inl (by decide))⟩

/-- C8: before the asynchronous connection is established the guarded
operations (those calling `ensureDbConnection`, here `createSale` of the
first storage class and `createSubsidiary` with valid input as a second
example via `ensureDbConnection` itself) fail with the
'Database connection not yet established' error — but the dual-engine
`createSale` dereferences the undefined handle and fails with a generic
TypeError instead, which is a different error value. -/
theorem C8_preinit_access (sale : InsertSale) (now : Int) :
    createSaleOp none sale now = (Except.error DbError.connectionNotEstablished, none) ∧
    ensureDbConnection none = Except.error DbError.connectionNotEstablished ∧
    createSaleDual none sale now =
      (Except.error (DbError.jsTypeError "Cannot read properties of undefined"), none) ∧
    DbError.jsTypeError "Cannot read properties of undefined" ≠
      DbError.connectionNotEstablished :=
  ⟨rfl, rfl, rfl, by decide⟩

/-- Helper: the bootstrap with an existing admin user is a no-op. -/
theorem ensureDefaultAdmin_noop (st : DBState) (hp : String) (u : User)
    (h : getUserByUsername st "admin" = some u) :
    ensureDefaultAdmin st hp = st := by
  unfold ensureDefaultAdmin
  rw [h]

/-- Helper: the admin count after one bootstrap run — created when zero,
untouched otherwise. -/
theorem countAdmin_ensureDefaultAdmin (st : DBState) (hp : String) :
    countAdmin (ensureDefaultAdmin st hp) =
      if countAdmin st = 0 then 1 else countAdmin st := by
  unfold ensureDefaultAdmin
  cases h : getUserByUsername st "admin" with
  | some u =>
    have h' : st.users.find? (fun v => v.username == "admin") = some u := h
    have hmem : u ∈ st.users := List.mem_of_find?_eq_some h'
    have hpu := List.find?_some h'
    have humem : u ∈ st.users.filter (fun v => v.username == "admin") :=
      List.mem_filter.mpr ⟨hmem, hpu⟩
    have hne : countAdmin st ≠ 0 := by
      unfold countAdmin
      intro h0
      rw [List.length_eq_zero] at h0
      rw [h0] at humem
      exact List.not_mem_nil u humem
    rw [if_neg hne]
  | none =>
    have hall : ∀ x ∈ st.users, ¬ (x.username == "admin") = true :=
      List.find?_eq_none.mp h
    have h0 : countAdmin st = 0 := by
      unfold countAdmin
      rw [List.length_eq_zero, List.filter_eq_nil_iff]
      exact hall
    rw [if_pos h0]
    show (List.filter (fun v => v.username == "admin")
        (st.users ++ [{ id := st.nextUserId, username := "admin", password := hp,
                        role := "mhc_admin", subsidiaryId := none }])).length = 1
    rw [List.filter_append, List.filter_eq_nil_iff.mpr hall]
    rfl

/-- Helper: once exactly one admin exists, every further bootstrap run
keeps exactly one. -/
theorem countAdmin_runAdminBootstrap_one (hps : List String) (st : DBState)
    (h1 : countAdmin st = 1) : countAdmin (runAdminBootstrap st hps) = 1 := by
  induction hps generalizing st with
  | nil => exact h1
  | cons hp rest ih =>
    show countAdmin (runAdminBootstrap (ensureDefaultAdmin st hp) rest) = 1
    apply ih
    rw [countAdmin_ensureDefaultAdmin, h1]
    simp

/-- C7: the default-admin bootstrap is idempotent — starting from a state
with at most one user named "admin" (usernames are unique), any non-empty
sequence of `ensureDefaultAdmin` runs leaves exactly one user named
"admin", and a run against a state that already has an admin is a no-op on
the users table. -/
theorem C7_bootstrap_idempotent (st : DBState) (hps : List String)
    (hadm : countAdmin st ≤ 1) (hne : hps ≠ []) :
    countAdmin (runAdminBootstrap st hps) = 1 ∧
    (∀ u hp, getUserByUsername st "admin" = some u → ensureDefaultAdmin st hp = st) := by
  constructor
  · cases hps with
    | nil => exact absurd rfl hne
    | cons hp rest =>
      show countAdmin (runAdminBootstrap (ensureDefaultAdmin st hp) rest) = 1
      apply countAdmin_runAdminBootstrap_one
      rw [countAdmin_ensureDefaultAdmin]
      rcases Nat.le_one_iff_eq_zero_or_eq_one.mp hadm with h0 | h1
      · rw [if_pos h0]
      · rw [if_neg (by simp [h1]), h1]
  · intro u hp h
    exact ensureDefaultAdmin_noop st hp u h

/-- Witness for C7: two bootstrap runs on the empty users table. -/
theorem C7_bootstrap_idempotent_witness :
    countAdmin wState ≤ 1 ∧ (["h1", "h2"] : List String) ≠ [] ∧
    (countAdmin (runAdminBootstrap wState ["h1", "h2"]) = 1 ∧
     (∀ u hp, getUserByUsername wState "admin" = some u →
        ensureDefaultAdmin wState hp = wState)) :=
  ⟨by decide, by decide,
    C7_bootstrap_idempotent wState ["h1", "h2"] (by decide) (by decide)⟩

/-- C9 (implicit behavior): `createSale` does not require the quantity to
be positive — for a zero or negative quantity against an item with stock
s ≥ 0 the check s < quantity is false, the sale is accepted, and the stored
quantity becomes s - quantity ≥ s (a negative-quantity sale increases
stock). -/
theorem C9_nonpositive_quantity_accepted (st : DBState) (sale : InsertSale) (now : Int)
    (item : Inventory) (hfind : findInventory st sale.itemId = some item)
    (hq : sale.quantity ≤ 0) (hs : 0 ≤ item.quantity) :
    (createSaleSt st sale now).1 = Except.ok (mkSaleRow st sale now) ∧
    (mkSaleRow st sale now).quantity = sale.quantity ∧
    findInventory (createSaleSt st sale now).2 sale.itemId =
      some { item with quantity := item.quantity - sale.quantity } ∧
    item.quantity ≤ item.quantity - sale.quantity := by
  have hstock : sale.quantity ≤ item.quantity := le_trans hq hs
  rw [createSaleSt_ok st sale now item hfind hstock]
  refine ⟨rfl, rfl, ?_, by omega⟩
  rw [findInventory_setInventoryQuantity]
  show (findInventory st sale.itemId).map
      (fun it => { it with quantity := item.quantity - sale.quantity }) =
    some { item with quantity := item.quantity - sale.quantity }
  rw [hfind]
  rfl

/-- Witness for C9: selling -2 Widgets raises the stock from 10 to 12. -/
theorem C9_nonpositive_quantity_accepted_witness :
    findInventory wState wSaleNeg.itemId = some wItem ∧
    wSaleNeg.quantity ≤ 0 ∧ 0 ≤ wItem.quantity ∧
    ((createSaleSt wState wSaleNeg 0).1 = Except.ok (mkSaleRow wState wSaleNeg 0) ∧
     (mkSaleRow wState wSaleNeg 0).quantity = wSaleNeg.quantity ∧
     findInventory (createSaleSt wState wSaleNeg 0).2 wSaleNeg.itemId =
       some { wItem with quantity := wItem.quantity - wSaleNeg.quantity } ∧
     wItem.quantity ≤ wItem.quantity - wSaleNeg.quantity) :=
  ⟨rfl, by decide, by decide,
    C9_nonpositive_quantity_accepted wState wSaleNeg 0 wItem rfl (by decide) (by decide)⟩

/-- C10 (implicit behavior): `createSale` never compares the sale's
subsidiaryId with the item's owning subsidiaryId — a sale whose
subsidiaryId differs from the item's owner succeeds when stock suffices
and decrements the other subsidiary's inventory. -/
theorem C10_cross_tenant_sale_allowed (st : DBState) (sale : InsertSale) (now : Int)
    (item : Inventory) (hfind : findInventory st sale.itemId = some item)
    (hstock : sale.quantity ≤ item.quantity)
    (hcross : sale.subsidiaryId ≠ item.subsidiaryId) :
    (createSaleSt st sale now).1 = Except.ok (mkSaleRow st sale now) ∧
    (mkSaleRow st sale now).subsidiaryId = sale.subsidiaryId ∧
    findInventory (createSaleSt st sale now).2 sale.itemId =
      some { item with quantity := item.quantity - sale.quantity } := by
  rw [createSaleSt_ok st sale now item hfind hstock]
  refine ⟨rfl, rfl, ?_⟩
  rw [findInventory_setInventoryQuantity]
  show (findInventory st sale.itemId).map
      (fun it => { it with quantity := item.quantity - sale.quantity }) =
    some { item with quantity := item.quantity - sale.quantity }
  rw [hfind]
  rfl

/-- Witness for C10: a sale for subsidiary 2 against subsidiary 1's item. -/
theorem C10_cross_tenant_sale_allowed_witness :
    findInventory wState wSaleCross.itemId = some wItem ∧
    wSaleCross.quantity ≤ wItem.quantity ∧
    wSaleCross.subsidiaryId ≠ wItem.subsidiaryId ∧
    ((createSaleSt wState wSaleCross 0).1 = Except.ok (mkSaleRow wState wSaleCross 0) ∧
     (mkSaleRow wState wSaleCross 0).subsidiaryId = wSaleCross.subsidiaryId ∧
     findInventory (createSaleSt wState wSaleCross 0).2 wSaleCross.itemId =
       some { wItem with quantity := wItem.quantity - wSaleCross.quantity }) :=
  ⟨rfl, by decide, by decide,
    C10_cross_tenant_sale_allowed wState wSaleCross 0 wItem rfl (by decide) (by decide)⟩

/-- C5: creating a second subsidiary with a taxId already stored by a
successful first `createSubsidiary` call fails with the distinguished
'Tax ID already exists' conflict error (not a generic failure), leaves the
state unchanged, and the first subsidiary's row is still stored. -/
theorem C5_duplicate_taxid_conflict (st0 st1 : DBState)
    (sub1 sub2 : InsertSubsidiary) (row1 : Subsidiary)
    (h1 : createSubsidiary (some st0) sub1 = (Except.ok row1, some st1))
    (hname : falsyStr sub2.name = false)
    (htax2 : falsyStr sub2.taxId = false)
    (hemail : falsyStr sub2.email = false)
    (hphone : falsyStr sub2.phoneNumber = false)
    (htax : sub2.taxId = sub1.taxId) :
    createSubsidiary (some st1) sub2 = (Except.error DbError.taxIdExists, some st1) ∧
    row1 ∈ listSubsidiaries st1 := by
  unfold createSubsidiary at h1
  split at h1
  · simp at h1
  · simp only [ensureDbConnection] at h1
    split at h1
    · simp at h1
    · simp at h1
    · next newRow st' heq =>
      rw [Prod.mk.injEq] at h1
      obtain ⟨hr, hs⟩ := h1
      injection hr with hr
      injection hs with hs
      unfold insertSubsidiaryRow at heq
      split at heq
      · simp at heq
      · next hnodup =>
        injection heq with heq
        rw [Prod.mk.injEq] at heq
        obtain ⟨hrow, hst⟩ := heq
        have hsubs : st1.subsidiaries =
            st0.subsidiaries ++ [mkSubsidiaryRow st0 sub1] := by
          rw [← hs, ← hst]
        have hrow1 : row1 = mkSubsidiaryRow st0 sub1 := by rw [← hr, ← hrow]
        have hv2 : ¬ ((falsyStr sub2.name || falsyStr sub2.taxId ||
            falsyStr sub2.email || falsyStr sub2.phoneNumber) = true) := by
          simp [hname, htax2, hemail, hphone]
        have hdup : insertSubsidiaryRow st1 (mkSubsidiaryRow st1 sub2) =
            Except.error DbError.pgUniqueViolation := by
          unfold insertSubsidiaryRow
          rw [if_pos ?hany]
          case hany =>
            rw [hsubs]
            simp [List.any_append, mkSubsidiaryRow, htax]
        constructor
        · unfold createSubsidiary
          rw [if_neg hv2]
          simp only [ensureDbConnection]
          rw [hdup]
        · rw [hrow1]
          unfold listSubsidiaries
          rw [hsubs]
          simp

/-- Witness for C5: Acme is stored under TAX-1, then Globex reuses TAX-1. -/
theorem C5_duplicate_taxid_conflict_witness :
    createSubsidiary (some wState) wSub1 = (Except.ok c5Row, some c5Mid) ∧
    falsyStr wSubDup.name = false ∧
    falsyStr wSubDup.taxId = false ∧
    falsyStr wSubDup.email = false ∧
    falsyStr wSubDup.phoneNumber = false ∧
    wSubDup.taxId = wSub1.taxId ∧
    (createSubsidiary (some c5Mid) wSubDup =
        (Except.error DbError.taxIdExists, some c5Mid) ∧
     c5Row ∈ listSubsidiaries c5Mid) :=
  ⟨rfl, by decide, by decide, by decide, by decide, rfl,
    C5_duplicate_taxid_conflict wState c5Mid wSub1 wSubDup c5Row rfl
      (by decide) (by decide) (by decide) (by decide) rfl⟩

end MultiTenantPOS
